import Mathlib

/-!
Verification of the CorBas backend (`corbas_backend.py`): a Flask server
offering text annotation (spaCy + optional PyMUSAS semantic tagging with a
deterministic fallback classifier) and PDF phrase highlighting (PyMuPDF).

The external collaborators (spaCy pipeline, PyMuPDF search/annotate engine,
JSON decoding, the HTTP layer) are modelled as oracle parameters; every piece
of first-party logic is translated directly from the Python source.
-/

namespace CorBas

/-- Python `str.lower()` restricted to the characters that occur here:
character-wise lower-casing of the string. -/
def py_lower (s : String) : String := String.mk (s.data.map Char.toLower)

/-- Whitespace characters stripped by Python `str.strip()` with no argument. -/
def isPyWhitespace (c : Char) : Bool :=
  c = ' ' || c = '\t' || c = '\n' || c = '\r' || c = '\x0b' || c = '\x0c'

/-- Python `str.strip()`: drop leading and trailing whitespace. -/
def py_strip (s : String) : String :=
  String.mk (((s.data.dropWhile isPyWhitespace).reverse.dropWhile isPyWhitespace).reverse)

/-- A spaCy token as consumed by the backend: the fields the handler reads.
`pymusas_tags` is `none` when the token does not carry the `pymusas_tags`
extension attribute (the `hasattr` check in `analyze_text`), and `some l`
when it carries the ranked candidate list `l`. -/
structure Token where
  text : String
  pos_ : String
  tag_ : String
  dep_ : String
  head_i : Nat
  lemma_ : String
  is_stop : Bool
  is_punct : Bool
  pymusas_tags : Option (List String)
deriving DecidableEq

/-- Gazetteer: positive-emotion lemmas (source line 225). -/
def emotion_positive : List String :=
  ["happy", "joy", "delighted", "pleased", "excited", "love", "wonderful"]

/-- Gazetteer: negative-emotion lemmas (source line 226). -/
def emotion_negative : List String :=
  ["sad", "angry", "fear", "hate", "anxious", "worried", "upset", "depressed"]

/-- Gazetteer: movement verbs (source line 233). -/
def movement_verbs : List String :=
  ["go", "come", "move", "walk", "run", "travel", "arrive", "leave", "enter", "exit"]

/-- Gazetteer: speech verbs (source line 237). -/
def speech_verbs : List String :=
  ["say", "tell", "speak", "talk", "communicate", "discuss", "mention", "ask", "answer"]

/-- Gazetteer: thought verbs (source line 241). -/
def thought_verbs : List String :=
  ["think", "believe", "know", "understand", "consider", "realize", "remember", "forget"]

/-- Gazetteer: positive adjectives (source line 245). -/
def positive_adj : List String :=
  ["good", "great", "excellent", "wonderful", "amazing", "beautiful", "perfect", "nice", "fine"]

/-- Gazetteer: negative adjectives (source line 246). -/
def negative_adj : List String :=
  ["bad", "poor", "terrible", "awful", "horrible", "ugly", "wrong", "worse", "worst"]

/-- Gazetteer: time words (source line 253). -/
def time_words : List String :=
  ["today", "tomorrow", "yesterday", "now", "then", "soon", "later", "before", "after"]

/-- Gazetteer: place words (source line 257). -/
def place_words : List String :=
  ["here", "there", "where", "place", "location", "home", "school", "office"]

/-- Translation of `get_semantic_fallback` (source lines 220-280): the early
`return` cascade becomes an if-then-else chain over the same membership tests
in the same order, followed by the part-of-speech table. -/
def get_semantic_fallback (token : Token) : String :=
  let pos := token.pos_
  let lem := py_lower token.lemma_
  if lem ∈ emotion_positive then "E1.1+"
  else if lem ∈ emotion_negative then "E1.1-"
  else if lem ∈ movement_verbs then "M1"
  else if lem ∈ speech_verbs then "Q2.2"
  else if lem ∈ thought_verbs then "X2.1"
  else if lem ∈ positive_adj then "A5.1+"
  else if lem ∈ negative_adj then "A5.1-"
  else if lem ∈ time_words then "T1"
  else if lem ∈ place_words then "M7"
  else if pos = "NOUN" then "O2"
  else if pos = "PROPN" then "Z3"
  else if pos = "VERB" then "A3+"
  else if pos = "ADJ" then "A5"
  else if pos = "ADV" then "A13"
  else if pos = "NUM" then "N1"
  else if pos = "ADP" then "Z5"
  else if pos = "DET" then "Z5"
  else if pos = "PRON" then "Z8"
  else "Z99"

/-- A token with the given coarse part-of-speech and lemma and neutral
remaining fields; `get_semantic_fallback` reads only `pos_` and `lemma_`. -/
def mkTok (pos lem : String) : Token :=
  { text := "", pos_ := pos, tag_ := "", dep_ := "", head_i := 0,
    lemma_ := lem, is_stop := false, is_punct := false, pymusas_tags := none }

/-- Semantic category chosen in the `analyze_text` token loop (source lines
105-110): when PyMUSAS is active and the token carries the `pymusas_tags`
attribute, the first ranked candidate, or `Z99` if the candidate list is
empty; otherwise the fallback classifier. -/
def primary_semantic (hasPymusas : Bool) (token : Token) : String :=
  match hasPymusas, token.pymusas_tags with
  | true, some semantic_tags =>
      match semantic_tags with
      | [] => "Z99"
      | t :: _ => t
  | _, _ => get_semantic_fallback token

/-- The per-token output dictionary assembled by `analyze_text` (source lines
112-122). -/
structure TokenRecord where
  word : String
  pos : String
  tag : String
  semantic : String
  dep : String
  head : Nat
  lemma_out : String
  is_stop : Bool
  is_punct : Bool
deriving DecidableEq

/-- One iteration of the token loop in `analyze_text`: every field but
`semantic` is copied verbatim from the pipeline token. -/
def mk_token_record (hasPymusas : Bool) (token : Token) : TokenRecord :=
  { word := token.text, pos := token.pos_, tag := token.tag_,
    semantic := primary_semantic hasPymusas token,
    dep := token.dep_, head := token.head_i, lemma_out := token.lemma_,
    is_stop := token.is_stop, is_punct := token.is_punct }

/-- The parsed JSON body of an `/analyze` request, as a record of the two keys
the handler reads. `text = none` models a body without the `"text"` key (a
body that is an empty dict is equivalent: the `not data` test then also fires
with `"text"` absent). -/
structure AnalyzeData where
  text : Option String
  corpus_name : Option String
deriving DecidableEq

/-- Outcome of the `/analyze` handler: a 400 error body, a 500 error body, or
the 200 JSON payload. -/
inductive AnalyzeResult where
  | err400 (error : String)
  | err500 (error : String)
  | ok200 (tokens : List TokenRecord) (num_tokens : Nat)
          (corpus_name : String) (has_pymusas : Bool)
deriving DecidableEq

/-- HTTP status of an `/analyze` outcome. -/
def AnalyzeResult.status : AnalyzeResult → Nat
  | .err400 _ => 400
  | .err500 _ => 500
  | .ok200 _ _ _ _ => 200

/-- Translation of the `/analyze` handler (source lines 87-139). `data` is the
result of `request.get_json()` (`none` when there is no parsable body);
`tokenize` is the external spaCy/PyMUSAS pipeline `nlp`, whose exceptions are
the `Except.error` case and are caught at the handler boundary as a 500. -/
def analyze_text (tokenize : String → Except String (List Token))
    (hasPymusas : Bool) (data : Option AnalyzeData) : AnalyzeResult :=
  match data with
  | none => .err400 "No text provided"
  | some d =>
    match d.text with
    | none => .err400 "No text provided"
    | some text =>
      match tokenize text with
      | .error e => .err500 e
      | .ok doc =>
        let tokens := doc.map (mk_token_record hasPymusas)
        .ok200 tokens tokens.length (d.corpus_name.getD "unnamed") hasPymusas

/-- A matched bounding region returned by the PDF engine's text search;
opaque to the backend, which only forwards it to the annotation call. -/
abbrev Rect := Nat

/-- A timestamp as consumed by `strftime` (the components the format string
`"%Y%m%d%H%M%S"` reads). -/
structure DateTimeParts where
  year : Nat
  month : Nat
  day : Nat
  hour : Nat
  minute : Nat
  second : Nat
deriving DecidableEq

/-- The decimal digit character for `n % 10`. -/
def digitChar (n : Nat) : Char := Char.ofNat (48 + n % 10)

/-- Modelled from the library call `datetime.now().strftime("%Y%m%d%H%M%S")`:
the zero-padded digit string `YYYYMMDDHHMMSS`, for component values in the
calendar ranges (years below 10000). -/
def strftime_YmdHMS (d : DateTimeParts) : String :=
  String.mk
    [digitChar (d.year / 1000), digitChar (d.year / 100),
     digitChar (d.year / 10), digitChar d.year,
     digitChar (d.month / 10), digitChar d.month,
     digitChar (d.day / 10), digitChar d.day,
     digitChar (d.hour / 10), digitChar d.hour,
     digitChar (d.minute / 10), digitChar d.minute,
     digitChar (d.second / 10), digitChar d.second]

/-- A highlight annotation as configured by the loop body in `highlight_pdf`
(source lines 183-192): the covered region, the stroke color set by
`set_colors`, the opacity set by `set_opacity`, and the `set_info` metadata. -/
structure Annot where
  rect : Rect
  stroke : ℚ × ℚ × ℚ
  opacity : ℚ
  title : String
  content : String
  creationDate : String
deriving DecidableEq

/-- The annotation built for one matched region `inst` of phrase `phrase`
(source lines 184-192): stroke is the normalized request color, opacity is
`0.4`, title is the fixed tool tag `"CorBas"`, content is the phrase wrapped
in double quotes, creationDate is the formatted current time. -/
def mkHighlight (color : ℚ × ℚ × ℚ) (now : DateTimeParts)
    (phrase : String) (inst : Rect) : Annot :=
  { rect := inst, stroke := color, opacity := 0.4, title := "CorBas",
    content := "\"" ++ phrase ++ "\"", creationDate := strftime_YmdHMS now }

/-- The string searched by the first pass for `phrase` (source line 177):
`phrase.lower().strip()`. -/
def phrase_lower (phrase : String) : String := py_strip (py_lower phrase)

/-- The two search passes over one page for one phrase (source lines 180-181):
`search` is the engine's `page.search_for`; the first pass uses the
lower-cased, stripped copy, the second the phrase exactly as given, and the
match lists are concatenated with no deduplication. -/
def phraseInstances (search : String → List Rect) (phrase : String) : List Rect :=
  search (phrase_lower phrase) ++ search phrase

/-- The annotations added on one page for one phrase: one per matched region
from either pass (source lines 183-192). -/
def pageAnnots (color : ℚ × ℚ × ℚ) (now : DateTimeParts)
    (search : String → List Rect) (phrase : String) : List Annot :=
  (phraseInstances search phrase).map (mkHighlight color now phrase)

/-- All annotations added by the page/phrase double loop of `highlight_pdf`
(source lines 173-193): pages outer, phrases inner, in order. -/
def highlightAnnots (color : ℚ × ℚ × ℚ) (now : DateTimeParts)
    (pages : List (String → List Rect)) (phrases : List String) : List Annot :=
  pages.flatMap (fun pg => phrases.flatMap (fun phrase => pageAnnots color now pg phrase))

/-- Value of a hexadecimal digit character, `none` for a non-hex character. -/
def hexVal (c : Char) : Option Nat :=
  if '0' ≤ c ∧ c ≤ '9' then some (c.toNat - 48)
  else if 'a' ≤ c ∧ c ≤ 'f' then some (c.toNat - 87)
  else if 'A' ≤ c ∧ c ≤ 'F' then some (c.toNat - 55)
  else none

/-- Helper for `pyIntHex`: fold hex digits into a value, failing on the first
non-hex character. -/
def pyIntHexAux : List Char → Nat → Except String Nat
  | [], acc => .ok acc
  | c :: cs, acc =>
    match hexVal c with
    | none => .error "invalid literal for int() with base 16"
    | some v => pyIntHexAux cs (16 * acc + v)

/-- Python `int(s, 16)` on a plain digit string: the hex value, raising
`ValueError` (the `Except.error` case) on an empty or non-hex string. -/
def pyIntHex (cs : List Char) : Except String Nat :=
  match cs with
  | [] => .error "invalid literal for int() with base 16"
  | _ => pyIntHexAux cs 0

/-- Color normalization in `highlight_pdf` (source lines 161-164):
`lstrip('#')` drops every leading `#`, then each of the three 2-hex-digit
slices `[0:2]`, `[2:4]`, `[4:6]` is parsed with `int(_, 16)` and divided by
255; a parse failure is the raised `ValueError`. -/
def parse_color (color_hex : String) : Except String (ℚ × ℚ × ℚ) := do
  let cs := color_hex.data.dropWhile (· = '#')
  let r ← pyIntHex (cs.take 2)
  let g ← pyIntHex ((cs.drop 2).take 2)
  let b ← pyIntHex ((cs.drop 4).take 2)
  pure ((r : ℚ) / 255, (g : ℚ) / 255, (b : ℚ) / 255)

/-- One uploaded multipart file: its client-supplied filename and bytes. -/
structure FilePart where
  filename : String
  content : List Nat
deriving DecidableEq

/-- Outcome of the `/highlight_pdf` handler: a 400 error body, a 500 error
body, or the 200 PDF attachment with its download name. -/
inductive HlResult where
  | err400 (error : String)
  | err500 (error : String)
  | ok200 (pdfBytes : List Nat) (downloadName : String)
deriving DecidableEq

/-- HTTP status of a `/highlight_pdf` outcome. -/
def HlResult.status : HlResult → Nat
  | .err400 _ => 400
  | .err500 _ => 500
  | .ok200 _ _ => 200

/-- Result of `/highlight_pdf` together with the resource trace of the opened
document object: whether `fitz.open` succeeded during the request and whether
`pdf_document.close()` was reached on the taken exit path. -/
structure HlOutcome where
  result : HlResult
  docOpened : Bool
  docClosed : Bool
deriving DecidableEq

/-- Run the engine's annotation-update calls over the built annotations in
order, stopping at the first raised exception. -/
def runAnnots (annotate : Annot → Except String Unit) : List Annot → Except String Unit
  | [] => .ok ()
  | a :: rest =>
    match annotate a with
    | .error e => .error e
    | .ok _ => runAnnots annotate rest

/-- Python `filename.rsplit('.', 1)[0]` (source line 203): everything before
the last dot, or the whole string when it has no dot. -/
def py_rsplit_stem (s : String) : String :=
  if s.data.contains '.' then
    String.mk (((s.data.reverse.dropWhile (· ≠ '.')).drop 1).reverse)
  else s

/-- Translation of the `/highlight_pdf` handler (source lines 142-217).
External engine operations are oracle parameters returning `Except`
(`openPdf` is `fitz.open` producing the pages' `search_for` functions,
`annotate` the per-annotation engine calls, `writeDoc` is
`pdf_document.write()`, `decodeJson` is `json.loads`); a raised exception is
caught at the handler boundary as a 500. The control flow — file checks,
phrase decoding and check, color parsing, open, annotate loop, write, close —
follows the source order; `docClosed` records whether the taken path reached
the `pdf_document.close()` call on line 198. -/
def highlight_pdf
    (openPdf : List Nat → Except String (List (String → List Rect)))
    (annotate : Annot → Except String Unit)
    (writeDoc : List Annot → Except String (List Nat))
    (decodeJson : String → Except String (List String))
    (now : DateTimeParts)
    (file : Option FilePart) (phrasesForm : Option String)
    (colorForm : Option String) : HlOutcome :=
  match file with
  | none => ⟨.err400 "No file provided", false, false⟩
  | some f =>
    if f.filename = "" then ⟨.err400 "No file selected", false, false⟩
    else
      match decodeJson (phrasesForm.getD "[]") with
      | .error e => ⟨.err500 e, false, false⟩
      | .ok phrases =>
        if phrases = [] then ⟨.err400 "No phrases to highlight", false, false⟩
        else
          match parse_color (colorForm.getD "#FFFF00") with
          | .error e => ⟨.err500 e, false, false⟩
          | .ok color =>
            match openPdf f.content with
            | .error e => ⟨.err500 e, false, false⟩
            | .ok pages =>
              let annots := highlightAnnots color now pages phrases
              match runAnnots annotate annots with
              | .error e => ⟨.err500 e, true, false⟩
              | .ok _ =>
                match writeDoc annots with
                | .error e => ⟨.err500 e, true, false⟩
                | .ok outBytes =>
                  ⟨.ok200 outBytes (py_rsplit_stem f.filename ++ "_highlighted.pdf"),
                   true, true⟩

end CorBas

open CorBas

/-- C1: for every token whose lower-cased lemma lies in one of the nine
gazetteer sets, `get_semantic_fallback` returns that set's code, the first
match in the fixed priority order winning, for every part-of-speech; in
particular lemma `love` with part-of-speech `VERB` yields `E1.1+` (not
`A3+`), and `Happy` and `happy` yield the same code. -/
theorem C1_gazetteer_first_match (token : Token) :
    (py_lower token.lemma_ ∈ emotion_positive →
      get_semantic_fallback token = "E1.1+")
    ∧ (py_lower token.lemma_ ∉ emotion_positive →
       py_lower token.lemma_ ∈ emotion_negative →
      get_semantic_fallback token = "E1.1-")
    ∧ (py_lower token.lemma_ ∉ emotion_positive →
       py_lower token.lemma_ ∉ emotion_negative →
       py_lower token.lemma_ ∈ movement_verbs →
      get_semantic_fallback token = "M1")
    ∧ (py_lower token.lemma_ ∉ emotion_positive →
       py_lower token.lemma_ ∉ emotion_negative →
       py_lower token.lemma_ ∉ movement_verbs →
       py_lower token.lemma_ ∈ speech_verbs →
      get_semantic_fallback token = "Q2.2")
    ∧ (py_lower token.lemma_ ∉ emotion_positive →
       py_lower token.lemma_ ∉ emotion_negative →
       py_lower token.lemma_ ∉ movement_verbs →
       py_lower token.lemma_ ∉ speech_verbs →
       py_lower token.lemma_ ∈ thought_verbs →
      get_semantic_fallback token = "X2.1")
    ∧ (py_lower token.lemma_ ∉ emotion_positive →
       py_lower token.lemma_ ∉ emotion_negative →
       py_lower token.lemma_ ∉ movement_verbs →
       py_lower token.lemma_ ∉ speech_verbs →
       py_lower token.lemma_ ∉ thought_verbs →
       py_lower token.lemma_ ∈ positive_adj →
      get_semantic_fallback token = "A5.1+")
    ∧ (py_lower token.lemma_ ∉ emotion_positive →
       py_lower token.lemma_ ∉ emotion_negative →
       py_lower token.lemma_ ∉ movement_verbs →
       py_lower token.lemma_ ∉ speech_verbs →
       py_lower token.lemma_ ∉ thought_verbs →
       py_lower token.lemma_ ∉ positive_adj →
       py_lower token.lemma_ ∈ negative_adj →
      get_semantic_fallback token = "A5.1-")
    ∧ (py_lower token.lemma_ ∉ emotion_positive →
       py_lower token.lemma_ ∉ emotion_negative →
       py_lower token.lemma_ ∉ movement_verbs →
       py_lower token.lemma_ ∉ speech_verbs →
       py_lower token.lemma_ ∉ thought_verbs →
       py_lower token.lemma_ ∉ positive_adj →
       py_lower token.lemma_ ∉ negative_adj →
       py_lower token.lemma_ ∈ time_words →
      get_semantic_fallback token = "T1")
    ∧ (py_lower token.lemma_ ∉ emotion_positive →
       py_lower token.lemma_ ∉ emotion_negative →
       py_lower token.lemma_ ∉ movement_verbs →
       py_lower token.lemma_ ∉ speech_verbs →
       py_lower token.lemma_ ∉ thought_verbs →
       py_lower token.lemma_ ∉ positive_adj →
       py_lower token.lemma_ ∉ negative_adj →
       py_lower token.lemma_ ∉ time_words →
       py_lower token.lemma_ ∈ place_words →
      get_semantic_fallback token = "M7")
    ∧ get_semantic_fallback (mkTok "VERB" "love") = "E1.1+"
    ∧ (∀ pos : String,
        get_semantic_fallback (mkTok pos "Happy") =
          get_semantic_fallback (mkTok pos "happy")) := by
  refine ⟨?_, ?_, ?_, ?_, ?_, ?_, ?_, ?_, ?_, by decide, ?_⟩
  · intro h1; simp [get_semantic_fallback, h1]
  · intro h1 h2; simp [get_semantic_fallback, h1, h2]
  · intro h1 h2 h3; simp [get_semantic_fallback, h1, h2, h3]
  · intro h1 h2 h3 h4; simp [get_semantic_fallback, h1, h2, h3, h4]
  · intro h1 h2 h3 h4 h5; simp [get_semantic_fallback, h1, h2, h3, h4, h5]
  · intro h1 h2 h3 h4 h5 h6; simp [get_semantic_fallback, h1, h2, h3, h4, h5, h6]
  · intro h1 h2 h3 h4 h5 h6 h7
    simp [get_semantic_fallback, h1, h2, h3, h4, h5, h6, h7]
  · intro h1 h2 h3 h4 h5 h6 h7 h8
    simp [get_semantic_fallback, h1, h2, h3, h4, h5, h6, h7, h8]
  · intro h1 h2 h3 h4 h5 h6 h7 h8 h9
    simp [get_semantic_fallback, h1, h2, h3, h4, h5, h6, h7, h8, h9]
  · intro pos
    have h : py_lower "Happy" = py_lower "happy" := by decide
    simp only [get_semantic_fallback, mkTok, h]

/-- C1 witness: the gazetteer conjuncts instantiated at concrete tokens. -/
theorem C1_gazetteer_first_match_witness :
    get_semantic_fallback (mkTok "NOUN" "joy") = "E1.1+"
    ∧ get_semantic_fallback (mkTok "ADJ" "sad") = "E1.1-"
    ∧ get_semantic_fallback (mkTok "NOUN" "walk") = "M1"
    ∧ get_semantic_fallback (mkTok "NOUN" "say") = "Q2.2"
    ∧ get_semantic_fallback (mkTok "NOUN" "think") = "X2.1"
    ∧ get_semantic_fallback (mkTok "VERB" "good") = "A5.1+"
    ∧ get_semantic_fallback (mkTok "VERB" "bad") = "A5.1-"
    ∧ get_semantic_fallback (mkTok "NOUN" "today") = "T1"
    ∧ get_semantic_fallback (mkTok "VERB" "here") = "M7" :=
  ⟨(C1_gazetteer_first_match (mkTok "NOUN" "joy")).1 (by decide),
   (C1_gazetteer_first_match (mkTok "ADJ" "sad")).2.1 (by decide) (by decide),
   (C1_gazetteer_first_match (mkTok "NOUN" "walk")).2.2.1 (by decide) (by decide)
     (by decide),
   (C1_gazetteer_first_match (mkTok "NOUN" "say")).2.2.2.1 (by decide) (by decide)
     (by decide) (by decide),
   (C1_gazetteer_first_match (mkTok "NOUN" "think")).2.2.2.2.1 (by decide)
     (by decide) (by decide) (by decide) (by decide),
   (C1_gazetteer_first_match (mkTok "VERB" "good")).2.2.2.2.2.1 (by decide)
     (by decide) (by decide) (by decide) (by decide) (by decide),
   (C1_gazetteer_first_match (mkTok "VERB" "bad")).2.2.2.2.2.2.1 (by decide)
     (by decide) (by decide) (by decide) (by decide) (by decide) (by decide),
   (C1_gazetteer_first_match (mkTok "NOUN" "today")).2.2.2.2.2.2.2.1 (by decide)
     (by decide) (by decide) (by decide) (by decide) (by decide) (by decide)
     (by decide),
   (C1_gazetteer_first_match (mkTok "VERB" "here")).2.2.2.2.2.2.2.2.1 (by decide)
     (by decide) (by decide) (by decide) (by decide) (by decide) (by decide)
     (by decide) (by decide)⟩

/-- C2: for every token whose lower-cased lemma lies in none of the nine
gazetteer sets, `get_semantic_fallback` returns exactly the part-of-speech
default per the table, `Z99` for every part-of-speech not listed, and the
result is always one of the nine default codes. -/
theorem C2_pos_defaults (token : Token)
    (h1 : py_lower token.lemma_ ∉ emotion_positive)
    (h2 : py_lower token.lemma_ ∉ emotion_negative)
    (h3 : py_lower token.lemma_ ∉ movement_verbs)
    (h4 : py_lower token.lemma_ ∉ speech_verbs)
    (h5 : py_lower token.lemma_ ∉ thought_verbs)
    (h6 : py_lower token.lemma_ ∉ positive_adj)
    (h7 : py_lower token.lemma_ ∉ negative_adj)
    (h8 : py_lower token.lemma_ ∉ time_words)
    (h9 : py_lower token.lemma_ ∉ place_words) :
    (token.pos_ = "NOUN" → get_semantic_fallback token = "O2")
    ∧ (token.pos_ = "PROPN" → get_semantic_fallback token = "Z3")
    ∧ (token.pos_ = "VERB" → get_semantic_fallback token = "A3+")
    ∧ (token.pos_ = "ADJ" → get_semantic_fallback token = "A5")
    ∧ (token.pos_ = "ADV" → get_semantic_fallback token = "A13")
    ∧ (token.pos_ = "NUM" → get_semantic_fallback token = "N1")
    ∧ (token.pos_ = "ADP" → get_semantic_fallback token = "Z5")
    ∧ (token.pos_ = "DET" → get_semantic_fallback token = "Z5")
    ∧ (token.pos_ = "PRON" → get_semantic_fallback token = "Z8")
    ∧ (token.pos_ ∉ ["NOUN", "PROPN", "VERB", "ADJ", "ADV", "NUM", "ADP",
         "DET", "PRON"] → get_semantic_fallback token = "Z99")
    ∧ get_semantic_fallback token ∈
        ["O2", "Z3", "A3+", "A5", "A13", "N1", "Z5", "Z8", "Z99"] := by
  refine ⟨?_, ?_, ?_, ?_, ?_, ?_, ?_, ?_, ?_, ?_, ?_⟩
  · intro hp; simp [get_semantic_fallback, h1, h2, h3, h4, h5, h6, h7, h8, h9, hp]
  · intro hp; simp [get_semantic_fallback, h1, h2, h3, h4, h5, h6, h7, h8, h9, hp]
  · intro hp; simp [get_semantic_fallback, h1, h2, h3, h4, h5, h6, h7, h8, h9, hp]
  · intro hp; simp [get_semantic_fallback, h1, h2, h3, h4, h5, h6, h7, h8, h9, hp]
  · intro hp; simp [get_semantic_fallback, h1, h2, h3, h4, h5, h6, h7, h8, h9, hp]
  · intro hp; simp [get_semantic_fallback, h1, h2, h3, h4, h5, h6, h7, h8, h9, hp]
  · intro hp; simp [get_semantic_fallback, h1, h2, h3, h4, h5, h6, h7, h8, h9, hp]
  · intro hp; simp [get_semantic_fallback, h1, h2, h3, h4, h5, h6, h7, h8, h9, hp]
  · intro hp; simp [get_semantic_fallback, h1, h2, h3, h4, h5, h6, h7, h8, h9, hp]
  · intro hp
    simp only [List.mem_cons, List.not_mem_nil, or_false, not_or] at hp
    obtain ⟨p1, p2, p3, p4, p5, p6, p7, p8, p9⟩ := hp
    simp [get_semantic_fallback, h1, h2, h3, h4, h5, h6, h7, h8, h9,
      p1, p2, p3, p4, p5, p6, p7, p8, p9]
  · simp only [get_semantic_fallback, h1, h2, h3, h4, h5, h6, h7, h8, h9,
      if_false, if_neg]
    split_ifs <;> decide

/-- C2 witness: the default table instantiated at concrete tokens whose lemma
is in no gazetteer set. -/
theorem C2_pos_defaults_witness :
    get_semantic_fallback (mkTok "NOUN" "table") = "O2"
    ∧ get_semantic_fallback (mkTok "DET" "the") = "Z5"
    ∧ get_semantic_fallback (mkTok "PUNCT" ".") = "Z99" :=
  ⟨(C2_pos_defaults (mkTok "NOUN" "table") (by decide) (by decide) (by decide)
      (by decide) (by decide) (by decide) (by decide) (by decide) (by decide)).1
      rfl,
   (C2_pos_defaults (mkTok "DET" "the") (by decide) (by decide) (by decide)
      (by decide) (by decide) (by decide) (by decide) (by decide)
      (by decide)).2.2.2.2.2.2.2.1 rfl,
   (C2_pos_defaults (mkTok "PUNCT" ".") (by decide) (by decide) (by decide)
      (by decide) (by decide) (by decide) (by decide) (by decide)
      (by decide)).2.2.2.2.2.2.2.2.2.1 (by decide)⟩

/-- C10: the lemma `wonderful` belongs to both the positive-emotion set and
the positive-adjective set, and since the positive-emotion check comes first,
`get_semantic_fallback` returns `E1.1+` for lemma `wonderful` at every
part-of-speech — the `A5.1+` branch is never taken for it. -/
theorem C10_wonderful_overlap :
    "wonderful" ∈ emotion_positive
    ∧ "wonderful" ∈ positive_adj
    ∧ ∀ pos : String,
        get_semantic_fallback (mkTok pos "wonderful") = "E1.1+" := by
  refine ⟨by decide, by decide, fun pos => ?_⟩
  have h : py_lower "wonderful" ∈ emotion_positive := by decide
  simp only [get_semantic_fallback, mkTok]
  rw [if_pos h]
/-- C4: the semantic category reported per token — first ranked candidate when
the external tagger is active and the token carries a non-empty candidate
list, `Z99` when it is active and the list is empty, and the fallback
classifier's result when it is inactive; and the token record reports exactly
this category. -/
theorem C4_semantic_choice (token : Token) :
    (∀ t ts, token.pymusas_tags = some (t :: ts) →
      primary_semantic true token = t)
    ∧ (token.pymusas_tags = some [] → primary_semantic true token = "Z99")
    ∧ primary_semantic false token = get_semantic_fallback token
    ∧ ∀ hasPymusas,
        (mk_token_record hasPymusas token).semantic =
          primary_semantic hasPymusas token := by
  refine ⟨?_, ?_, rfl, fun _ => rfl⟩
  · intro t ts h; simp [primary_semantic, h]
  · intro h; simp [primary_semantic, h]

/-- C4 witness: the three cases at concrete tokens. -/
theorem C4_semantic_choice_witness :
    primary_semantic true
        { text := "cat", pos_ := "NOUN", tag_ := "NN", dep_ := "nsubj",
          head_i := 1, lemma_ := "cat", is_stop := false, is_punct := false,
          pymusas_tags := some ["L2", "Z99"] } = "L2"
    ∧ primary_semantic true
        { text := "cat", pos_ := "NOUN", tag_ := "NN", dep_ := "nsubj",
          head_i := 1, lemma_ := "cat", is_stop := false, is_punct := false,
          pymusas_tags := some [] } = "Z99"
    ∧ primary_semantic false (mkTok "NOUN" "cat") =
        get_semantic_fallback (mkTok "NOUN" "cat") :=
  ⟨(C4_semantic_choice _).1 "L2" ["Z99"] rfl,
   (C4_semantic_choice _).2.1 rfl,
   (C4_semantic_choice (mkTok "NOUN" "cat")).2.2.1⟩

/-- C5: `/analyze` returns 400 exactly when the body is unparsable/absent or
lacks the `text` key; when a `text` string is present and the pipeline
succeeds it returns 200 whose `num_tokens` equals the length of the returned
token list, and for `text = ""` (with the pipeline yielding no tokens on the
empty string) the list is empty and `num_tokens` is `0`. -/
theorem C5_analyze_status (tokenize : String → Except String (List Token))
    (hasPymusas : Bool) (data : Option AnalyzeData) :
    ((analyze_text tokenize hasPymusas data).status = 400 ↔
      data = none ∨ ∃ d, data = some d ∧ d.text = none)
    ∧ (∀ d text doc, data = some d → d.text = some text →
        tokenize text = .ok doc →
        analyze_text tokenize hasPymusas data =
          .ok200 (doc.map (mk_token_record hasPymusas))
            (doc.map (mk_token_record hasPymusas)).length
            (d.corpus_name.getD "unnamed") hasPymusas)
    ∧ (∀ d, data = some d → d.text = some "" → tokenize "" = .ok [] →
        analyze_text tokenize hasPymusas data =
          .ok200 [] 0 (d.corpus_name.getD "unnamed") hasPymusas) := by
  refine ⟨?_, ?_, ?_⟩
  · match data with
    | none => simp [analyze_text, AnalyzeResult.status]
    | some d =>
      match hd : d.text with
      | none => simp [analyze_text, hd, AnalyzeResult.status]
      | some text =>
        match ht : tokenize text with
        | .error e => simp [analyze_text, hd, ht, AnalyzeResult.status]
        | .ok doc => simp [analyze_text, hd, ht, AnalyzeResult.status]
  · intro d text doc hdata htext htok
    subst hdata
    simp [analyze_text, htext, htok]
  · intro d hdata htext htok
    subst hdata
    simp [analyze_text, htext, htok]

/-- C5 witness: a body without `text` gives status 400; a body carrying the
empty string gives 200 with no tokens and `num_tokens = 0`. -/
theorem C5_analyze_status_witness :
    (analyze_text (fun _ => .ok []) true
        (some { text := none, corpus_name := none })).status = 400
    ∧ analyze_text (fun _ => .ok []) true
        (some { text := some "", corpus_name := none }) =
      .ok200 [] 0 "unnamed" true :=
  ⟨(C5_analyze_status (fun _ => .ok []) true
      (some { text := none, corpus_name := none })).1.mpr
      (Or.inr ⟨_, rfl, rfl⟩),
   (C5_analyze_status (fun _ => .ok []) true
      (some { text := some "", corpus_name := none })).2.2 _ rfl rfl rfl⟩

/-- C3 counterexample: the first search pass uses `phrase.lower().strip()`,
not just an all-lower-cased copy. For the phrase `"hello "` — already entirely
lower case — the first pass string differs from the phrase, so the two passes
do not search for the same string: against a page whose search function
matches exactly `"hello "`, the two passes yield one match in total, not the
same match set twice. -/
theorem C3_counterexample :
    py_lower "hello " = "hello "
    ∧ phrase_lower "hello " ≠ py_lower "hello "
    ∧ phraseInstances (fun s => if s = "hello " then [0] else []) "hello " ≠
        (fun s => if s = "hello " then [0] else []) "hello " ++
        (fun s => if s = "hello " then [0] else []) "hello " := by
  refine ⟨by decide, by decide, ?_⟩
  decide

/-- C3 amended: per page and phrase the highlighter performs exactly two
search passes, the first for the lower-cased and whitespace-stripped copy of
the phrase, the second for the phrase exactly as given, concatenating the two
match lists; for a phrase that is already lower case and carries no leading
or trailing whitespace, both passes search for the same string and yield the
same match set twice; and every matched region from either pass receives its
own highlight annotation, with no deduplication. -/
theorem C3_two_pass_search (search : String → List Rect) (phrase : String) :
    phraseInstances search phrase =
      search (py_strip (py_lower phrase)) ++ search phrase
    ∧ (py_lower phrase = phrase → py_strip phrase = phrase →
        phraseInstances search phrase = search phrase ++ search phrase)
    ∧ ∀ (color : ℚ × ℚ × ℚ) (now : DateTimeParts),
        (pageAnnots color now search phrase).length =
          (phraseInstances search phrase).length := by
  refine ⟨rfl, ?_, fun color now => ?_⟩
  · intro h1 h2
    unfold phraseInstances phrase_lower
    rw [h1, h2]
  · unfold pageAnnots
    exact List.length_map _ _

/-- C3 amended witness: for the already-lower-case, stripped phrase `"hello"`
the two passes coincide and each of the duplicate matches gets an
annotation. -/
theorem C3_two_pass_search_witness :
    phraseInstances (fun s => if s = "hello" then [7] else []) "hello" =
      (fun s => if s = "hello" then [7] else []) "hello" ++
      (fun s => if s = "hello" then [7] else []) "hello"
    ∧ (pageAnnots (1, 0, 0) ⟨2026, 1, 2, 3, 4, 5⟩
        (fun s => if s = "hello" then [7] else []) "hello").length =
      (phraseInstances (fun s => if s = "hello" then [7] else []) "hello").length :=
  ⟨(C3_two_pass_search (fun s => if s = "hello" then [7] else []) "hello").2.1
      (by decide) (by decide),
   (C3_two_pass_search (fun s => if s = "hello" then [7] else []) "hello").2.2
      (1, 0, 0) ⟨2026, 1, 2, 3, 4, 5⟩⟩

/-- C6: `/highlight_pdf` returns 400 with an error body whenever the file
field is missing, the uploaded file is empty (empty filename, i.e. no file
selected), or the decoded phrase list is empty; in each case the document is
never opened (no highlighting is attempted) and the result carries no PDF. -/
theorem C6_highlight_400 (openPdf : List Nat → Except String (List (String → List Rect)))
    (annotate : Annot → Except String Unit)
    (writeDoc : List Annot → Except String (List Nat))
    (decodeJson : String → Except String (List String))
    (now : DateTimeParts) (file : Option FilePart)
    (phrasesForm colorForm : Option String) :
    (file = none →
      highlight_pdf openPdf annotate writeDoc decodeJson now file phrasesForm
        colorForm = ⟨.err400 "No file provided", false, false⟩)
    ∧ (∀ f, file = some f → f.filename = "" →
      highlight_pdf openPdf annotate writeDoc decodeJson now file phrasesForm
        colorForm = ⟨.err400 "No file selected", false, false⟩)
    ∧ (∀ f, file = some f → f.filename ≠ "" →
        decodeJson (phrasesForm.getD "[]") = .ok [] →
      highlight_pdf openPdf annotate writeDoc decodeJson now file phrasesForm
        colorForm = ⟨.err400 "No phrases to highlight", false, false⟩) := by
  refine ⟨?_, ?_, ?_⟩
  · intro h; subst h; rfl
  · intro f hf hname; subst hf
    simp [highlight_pdf, hname]
  · intro f hf hname hdec; subst hf
    simp [highlight_pdf, hname, hdec]

/-- C6 witness: the three 400 paths at concrete requests. -/
theorem C6_highlight_400_witness :
    highlight_pdf (fun _ => .ok []) (fun _ => .ok ()) (fun _ => .ok [])
        (fun _ => .ok ["x"]) ⟨2026, 1, 2, 3, 4, 5⟩ none none none =
      ⟨.err400 "No file provided", false, false⟩
    ∧ highlight_pdf (fun _ => .ok []) (fun _ => .ok ()) (fun _ => .ok [])
        (fun _ => .ok ["x"]) ⟨2026, 1, 2, 3, 4, 5⟩ (some ⟨"", [1]⟩) none none =
      ⟨.err400 "No file selected", false, false⟩
    ∧ highlight_pdf (fun _ => .ok []) (fun _ => .ok ()) (fun _ => .ok [])
        (fun _ => .ok []) ⟨2026, 1, 2, 3, 4, 5⟩ (some ⟨"doc.pdf", [1]⟩)
        (some "[]") none =
      ⟨.err400 "No phrases to highlight", false, false⟩ :=
  ⟨(C6_highlight_400 (fun _ => .ok []) (fun _ => .ok ()) (fun _ => .ok [])
      (fun _ => .ok ["x"]) ⟨2026, 1, 2, 3, 4, 5⟩ none none none).1 rfl,
   (C6_highlight_400 (fun _ => .ok []) (fun _ => .ok ()) (fun _ => .ok [])
      (fun _ => .ok ["x"]) ⟨2026, 1, 2, 3, 4, 5⟩ (some ⟨"", [1]⟩) none none).2.1
      _ rfl rfl,
   (C6_highlight_400 (fun _ => .ok []) (fun _ => .ok ()) (fun _ => .ok [])
      (fun _ => .ok []) ⟨2026, 1, 2, 3, 4, 5⟩ (some ⟨"doc.pdf", [1]⟩)
      (some "[]") none).2.2 _ rfl (by decide) rfl⟩

/-- Helper: the digit characters emitted by the timestamp format are decimal
digits. -/
theorem digitChar_isDigit (n : Nat) : (digitChar n).isDigit = true := by
  have h : n % 10 < 10 := Nat.mod_lt _ (by norm_num)
  unfold digitChar
  generalize n % 10 = k at h
  interval_cases k <;> decide

/-- C7: every highlight annotation gets the normalized request color as its
stroke (`#FF0000` parses to exactly `(1, 0, 0)`: each 2-hex-digit channel
divided by 255), opacity `0.4`, the fixed tool title `CorBas`, content equal
to the quoted matched phrase, and the `YYYYMMDDHHMMSS`-formatted current time
(14 characters, all digits) as its creation date. -/
theorem C7_annotation_fields (color : ℚ × ℚ × ℚ) (now : DateTimeParts)
    (pages : List (String → List Rect)) (phrases : List String) :
    parse_color "#FF0000" = .ok (1, 0, 0)
    ∧ (∀ a ∈ highlightAnnots color now pages phrases,
        a.stroke = color ∧ a.opacity = 0.4 ∧ a.title = "CorBas"
        ∧ (∃ p ∈ phrases, a.content = "\"" ++ p ++ "\"")
        ∧ a.creationDate = strftime_YmdHMS now)
    ∧ (strftime_YmdHMS now).length = 14
    ∧ ∀ c ∈ (strftime_YmdHMS now).data, c.isDigit = true := by
  refine ⟨?_, ?_, rfl, ?_⟩
  · show Except.ok
      (((255 : Nat) : ℚ) / 255, ((0 : Nat) : ℚ) / 255, ((0 : Nat) : ℚ) / 255) = _
    norm_num
  · intro a ha
    simp only [highlightAnnots, List.mem_flatMap] at ha
    obtain ⟨pg, -, hpa⟩ := ha
    obtain ⟨p, hp, ha⟩ := hpa
    simp only [pageAnnots, List.mem_map] at ha
    obtain ⟨inst, -, rfl⟩ := ha
    exact ⟨rfl, rfl, rfl, ⟨p, hp, rfl⟩, rfl⟩
  · intro c hc
    simp only [strftime_YmdHMS, String.data, List.mem_cons,
      List.not_mem_nil, or_false] at hc
    rcases hc with rfl | rfl | rfl | rfl | rfl | rfl | rfl | rfl | rfl | rfl |
      rfl | rfl | rfl | rfl <;> exact digitChar_isDigit _

/-- C7 witness: a concrete annotation from a one-page, one-phrase request
carries all the fields the theorem describes. -/
theorem C7_annotation_fields_witness :
    parse_color "#FF0000" = .ok (1, 0, 0)
    ∧ (mkHighlight (1, 0, 0) ⟨2026, 1, 2, 3, 4, 5⟩ "hello" 7).stroke = (1, 0, 0)
    ∧ (mkHighlight (1, 0, 0) ⟨2026, 1, 2, 3, 4, 5⟩ "hello" 7).opacity = 0.4
    ∧ (mkHighlight (1, 0, 0) ⟨2026, 1, 2, 3, 4, 5⟩ "hello" 7).title = "CorBas"
    ∧ (∃ p ∈ ["hello"],
        (mkHighlight (1, 0, 0) ⟨2026, 1, 2, 3, 4, 5⟩ "hello" 7).content =
          "\"" ++ p ++ "\"")
    ∧ (mkHighlight (1, 0, 0) ⟨2026, 1, 2, 3, 4, 5⟩ "hello" 7).creationDate =
        strftime_YmdHMS ⟨2026, 1, 2, 3, 4, 5⟩ := by
  have h := C7_annotation_fields (1, 0, 0) ⟨2026, 1, 2, 3, 4, 5⟩
    [fun _ => [7]] ["hello"]
  have hm := h.2.1 (mkHighlight (1, 0, 0) ⟨2026, 1, 2, 3, 4, 5⟩ "hello" 7)
    (by simp [highlightAnnots, pageAnnots, phraseInstances])
  exact ⟨h.1, hm.1, hm.2.1, hm.2.2.1, hm.2.2.2.1, hm.2.2.2.2⟩

/-- C8: every exception raised inside a handler body surfaces as a 500 whose
error body is the exception's string representation — for `/analyze` a
pipeline exception, for `/highlight_pdf` an exception from phrase decoding,
color parsing, document opening, annotation, or serialization — and neither
endpoint returns a partial result: a 200 from either handler implies every
internal step succeeded and the payload is the complete output. -/
theorem C8_exceptions_to_500
    (tokenize : String → Except String (List Token)) (hasPymusas : Bool)
    (data : Option AnalyzeData)
    (openPdf : List Nat → Except String (List (String → List Rect)))
    (annotate : Annot → Except String Unit)
    (writeDoc : List Annot → Except String (List Nat))
    (decodeJson : String → Except String (List String))
    (now : DateTimeParts) (file : Option FilePart)
    (phrasesForm colorForm : Option String) :
    (∀ d text e, data = some d → d.text = some text →
      tokenize text = .error e →
      analyze_text tokenize hasPymusas data = .err500 e)
    ∧ (∀ toks n cn hp, analyze_text tokenize hasPymusas data = .ok200 toks n cn hp →
        ∃ d text doc, data = some d ∧ d.text = some text
          ∧ tokenize text = .ok doc
          ∧ toks = doc.map (mk_token_record hasPymusas) ∧ n = toks.length)
    ∧ (∀ f e, file = some f → f.filename ≠ "" →
        decodeJson (phrasesForm.getD "[]") = .error e →
        highlight_pdf openPdf annotate writeDoc decodeJson now file phrasesForm
          colorForm = ⟨.err500 e, false, false⟩)
    ∧ (∀ f phrases e, file = some f → f.filename ≠ "" →
        decodeJson (phrasesForm.getD "[]") = .ok phrases → phrases ≠ [] →
        parse_color (colorForm.getD "#FFFF00") = .error e →
        highlight_pdf openPdf annotate writeDoc decodeJson now file phrasesForm
          colorForm = ⟨.err500 e, false, false⟩)
    ∧ (∀ f phrases color e, file = some f → f.filename ≠ "" →
        decodeJson (phrasesForm.getD "[]") = .ok phrases → phrases ≠ [] →
        parse_color (colorForm.getD "#FFFF00") = .ok color →
        openPdf f.content = .error e →
        highlight_pdf openPdf annotate writeDoc decodeJson now file phrasesForm
          colorForm = ⟨.err500 e, false, false⟩)
    ∧ (∀ f phrases color pages e, file = some f → f.filename ≠ "" →
        decodeJson (phrasesForm.getD "[]") = .ok phrases → phrases ≠ [] →
        parse_color (colorForm.getD "#FFFF00") = .ok color →
        openPdf f.content = .ok pages →
        runAnnots annotate (highlightAnnots color now pages phrases) = .error e →
        highlight_pdf openPdf annotate writeDoc decodeJson now file phrasesForm
          colorForm = ⟨.err500 e, true, false⟩)
    ∧ (∀ f phrases color pages e, file = some f → f.filename ≠ "" →
        decodeJson (phrasesForm.getD "[]") = .ok phrases → phrases ≠ [] →
        parse_color (colorForm.getD "#FFFF00") = .ok color →
        openPdf f.content = .ok pages →
        runAnnots annotate (highlightAnnots color now pages phrases) = .ok () →
        writeDoc (highlightAnnots color now pages phrases) = .error e →
        highlight_pdf openPdf annotate writeDoc decodeJson now file phrasesForm
          colorForm = ⟨.err500 e, true, false⟩)
    ∧ (∀ out name,
        (highlight_pdf openPdf annotate writeDoc decodeJson now file phrasesForm
          colorForm).result = .ok200 out name →
        ∃ f phrases color pages, file = some f ∧ f.filename ≠ ""
          ∧ decodeJson (phrasesForm.getD "[]") = .ok phrases ∧ phrases ≠ []
          ∧ parse_color (colorForm.getD "#FFFF00") = .ok color
          ∧ openPdf f.content = .ok pages
          ∧ runAnnots annotate (highlightAnnots color now pages phrases) = .ok ()
          ∧ writeDoc (highlightAnnots color now pages phrases) = .ok out
          ∧ name = py_rsplit_stem f.filename ++ "_highlighted.pdf") := by
  refine ⟨?_, ?_, ?_, ?_, ?_, ?_, ?_, ?_⟩
  · intro d text e hdata htext htok
    subst hdata
    simp [analyze_text, htext, htok]
  · intro toks n cn hp h
    rcases data with _ | d
    · simp [analyze_text] at h
    · rcases htext : d.text with _ | text
      · simp [analyze_text, htext] at h
      · rcases htok : tokenize text with e | doc
        · simp [analyze_text, htext, htok] at h
        · simp only [analyze_text, htext, htok] at h
          obtain ⟨rfl, rfl, rfl, rfl⟩ := AnalyzeResult.ok200.inj h
          exact ⟨d, text, doc, rfl, htext, htok, rfl, rfl⟩
  · intro f e hf hname hdec
    subst hf
    simp [highlight_pdf, hname, hdec]
  · intro f phrases e hf hname hdec hph hcol
    subst hf
    simp [highlight_pdf, hname, hdec, hph, hcol]
  · intro f phrases color e hf hname hdec hph hcol hopen
    subst hf
    simp [highlight_pdf, hname, hdec, hph, hcol, hopen]
  · intro f phrases color pages e hf hname hdec hph hcol hopen hrun
    subst hf
    simp [highlight_pdf, hname, hdec, hph, hcol, hopen, hrun]
  · intro f phrases color pages e hf hname hdec hph hcol hopen hrun hw
    subst hf
    simp [highlight_pdf, hname, hdec, hph, hcol, hopen, hrun, hw]
  · intro out name h
    rcases file with _ | f
    · simp [highlight_pdf] at h
    · by_cases hname : f.filename = ""
      · simp [highlight_pdf, hname] at h
      · rcases hdec : decodeJson (phrasesForm.getD "[]") with e | phrases
        · simp [highlight_pdf, hname, hdec] at h
        · by_cases hph : phrases = []
          · simp [highlight_pdf, hname, hdec, hph] at h
          · rcases hcol : parse_color (colorForm.getD "#FFFF00") with e | color
            · simp [highlight_pdf, hname, hdec, hph, hcol] at h
            · rcases hopen : openPdf f.content with e | pages
              · simp [highlight_pdf, hname, hdec, hph, hcol, hopen] at h
              · rcases hrun : runAnnots annotate
                  (highlightAnnots color now pages phrases) with e | u
                · simp [highlight_pdf, hname, hdec, hph, hcol, hopen, hrun] at h
                · rcases hw : writeDoc (highlightAnnots color now pages phrases)
                    with e | outBytes
                  · simp [highlight_pdf, hname, hdec, hph, hcol, hopen, hrun,
                      hw] at h
                  · simp only [highlight_pdf, hname, hdec, hph, hcol, hopen,
                      hrun, hw, if_neg, if_false] at h
                    obtain ⟨rfl, rfl⟩ := HlResult.ok200.inj h
                    exact ⟨f, phrases, color, pages, rfl, hname, rfl, hph,
                      rfl, hopen, hrun, hw, rfl⟩

/-- C8 witness: a raised pipeline exception surfaces as the analyze 500 body,
and a raised annotation exception surfaces as the highlight 500 body. -/
theorem C8_exceptions_to_500_witness :
    analyze_text (fun _ => .error "boom") true
      (some { text := some "hi", corpus_name := none }) = .err500 "boom"
    ∧ highlight_pdf (fun _ => .ok [fun _ => [0]]) (fun _ => .error "boom")
        (fun _ => .ok []) (fun _ => .ok ["hello"]) ⟨2026, 1, 2, 3, 4, 5⟩
        (some ⟨"doc.pdf", [1]⟩) (some "[\"hello\"]") none =
      ⟨.err500 "boom", true, false⟩ := by
  have h := C8_exceptions_to_500 (fun _ => .error "boom") true
    (some { text := some "hi", corpus_name := none })
    (fun _ => .ok [fun _ => [0]]) (fun _ => .error "boom")
    (fun _ => .ok []) (fun _ => .ok ["hello"]) ⟨2026, 1, 2, 3, 4, 5⟩
    (some ⟨"doc.pdf", [1]⟩) (some "[\"hello\"]") none
  refine ⟨h.1 _ "hi" "boom" rfl rfl rfl, ?_⟩
  refine h.2.2.2.2.2.1 ⟨"doc.pdf", [1]⟩ ["hello"]
    (((255 : Nat) : ℚ) / 255, ((255 : Nat) : ℚ) / 255, ((0 : Nat) : ℚ) / 255)
    [fun _ => [0]] "boom" rfl (by decide) rfl (by decide) rfl rfl rfl

/-- C9: against the claim that the document is closed on every exit path, the
code reaches `pdf_document.close()` only after a successful `write()`: for a
request whose file, phrase list and color are all valid and whose document
opens, an exception raised while annotating returns the 500 body with the
document opened but never closed; by contrast the fully successful run does
close it. -/
theorem C9_close_skipped_on_error :
    highlight_pdf (fun _ => .ok [fun _ => [0]]) (fun _ => .error "annot failed")
        (fun _ => .ok [9]) (fun _ => .ok ["hello"]) ⟨2026, 1, 2, 3, 4, 5⟩
        (some ⟨"doc.pdf", [1]⟩) (some "[\"hello\"]") none =
      ⟨.err500 "annot failed", true, false⟩
    ∧ highlight_pdf (fun _ => .ok [fun _ => [0]]) (fun _ => .ok ())
        (fun _ => .ok [9]) (fun _ => .ok ["hello"]) ⟨2026, 1, 2, 3, 4, 5⟩
        (some ⟨"doc.pdf", [1]⟩) (some "[\"hello\"]") none =
      ⟨.ok200 [9] "doc_highlighted.pdf", true, true⟩ := ⟨rfl, rfl⟩
